import Mathlib

/-!
Shallow embedding of `src/zlib-rs/src/crc32_pclmulqdq.rs`: the 128-bit
carry-less-multiplication CRC32 folding engine, its incremental facade
`Crc32Fold`, and the one-shot entry points `crc32` / `crc32_copy`.

A 128-bit SSE register (`__m128i`) is modelled as a `Nat` below `2^128`,
little-endian: memory byte `i` occupies bits `8*i .. 8*i+7`.  The x86
intrinsics used by the source are given exact bit-level semantics as
`Nat` functions.  Panics (failed `assert!`, slice-index panics, and the
`Option::unwrap` inside `Accumulator::progress`) are modelled with
`Except RsPanic`.  Runtime CPU-feature detection (`is_pclmulqdq`) is an
external boolean collaborator and is passed in as a parameter `hw`;
the start address of a source slice is not observable on byte lists, so
it is passed as the ghost parameter `addr` (only `addr % 16` matters,
exactly as in the source's `src.as_ptr() as usize & 0xF`).
-/

set_option maxRecDepth 3500

namespace ZlibRs

/-! ## Bit-level primitives for the 128-bit register model -/

/-- Truncate to 128 bits (the width of one `__m128i` lane). -/
def mask128 (x : Nat) : Nat := x % 2 ^ 128

/-- The source's `reg([u32; 4])`: four little-endian 32-bit words make one
128-bit register value. -/
def reg (a b c d : Nat) : Nat :=
  a % 2 ^ 32 + (b % 2 ^ 32) * 2 ^ 32 + (c % 2 ^ 32) * 2 ^ 64 + (d % 2 ^ 32) * 2 ^ 96

/-- Low 64-bit half of a 128-bit register. -/
def lo64 (x : Nat) : Nat := x % 2 ^ 64

/-- High 64-bit half of a 128-bit register. -/
def hi64 (x : Nat) : Nat := x / 2 ^ 64 % 2 ^ 64

/-- Carry-less (GF(2)) product of two 64-bit values; the result fits in
127 bits, as on the hardware. -/
def clmul (a b : Nat) : Nat :=
  (List.range 64).foldl (fun acc i => if b.testBit i then acc ^^^ (a <<< i) else acc) 0

/-- `_mm_clmulepi64_si128 a b imm`: bit 0 of `imm` selects the low/high
qword of `a`, bit 4 selects the low/high qword of `b`. -/
def pclmul (a b imm : Nat) : Nat :=
  clmul (if imm % 2 = 1 then hi64 a else lo64 a)
        (if imm / 16 % 2 = 1 then hi64 b else lo64 b)

/-- `_mm_srli_si128 x n`: shift right by `n` bytes. -/
def srli128 (x n : Nat) : Nat := x >>> (8 * n)

/-- `_mm_slli_si128 x n`: shift left by `n` bytes, truncated to 128 bits. -/
def slli128 (x n : Nat) : Nat := mask128 (x <<< (8 * n))

/-- `_mm_extract_epi32 x 2`: the third 32-bit element. -/
def extract32at2 (x : Nat) : Nat := x >>> 64 % 2 ^ 32

/-- Byte `i` of a register value. -/
def byteAt (x i : Nat) : Nat := x >>> (8 * i) % 256

/-- `_mm_shuffle_epi8 x m`: per-byte table lookup; a mask byte with its
high bit set yields 0, otherwise its low four bits index a byte of `x`. -/
def shuf (x m : Nat) : Nat :=
  (List.range 16).foldl (fun acc i =>
    let mi := byteAt m i
    if mi < 128 then acc ||| (byteAt x (mi % 16) <<< (8 * i)) else acc) 0

/-- Little-endian value of a byte list (each entry reduced mod 256, as the
source stores `u8`s). -/
def bytesToNat : List Nat → Nat
  | [] => 0
  | b :: bs => b % 256 + 256 * bytesToNat bs

/-- A 16-byte load (`_mm_load_si128` / `_mm_loadu_si128`) from the head of
a byte list.  All loads in the source read 16 in-bounds bytes; a shorter
list (which a load never sees on any reachable path) is zero-padded. -/
def load16 (bs : List Nat) : Nat := bytesToNat (bs.take 16)

/-- The 16 bytes of a register value, little-endian (`_mm_storeu_si128`). -/
def natToBytes16 (x : Nat) : List Nat := (List.range 16).map (byteAt x)

/-- `std::ptr::copy_nonoverlapping(src, &mut part, src.len())`: overwrite
the low `bs.length` bytes of `x` with `bs`, keeping the upper bytes. -/
def setBytes (x : Nat) (bs : List Nat) : Nat :=
  bytesToNat bs + (x >>> (8 * bs.length)) <<< (8 * bs.length)

/-! ## The scalar fallback, modelled from the spec

The fallback `crc32_braid` lives in `crate::crc32`, outside the sources
under verification; the spec pins it down as a pure function. -/

/-- One bit-step of the reflected CRC32 with polynomial 0xEDB88320. -/
def crcBitStep (c : Nat) : Nat :=
  if c % 2 = 1 then (c >>> 1) ^^^ 0xEDB88320 else c >>> 1

/-- One byte-step of the reflected CRC32. -/
def crcByteStep (c b : Nat) : Nat :=
  crcBitStep (crcBitStep (crcBitStep (crcBitStep
    (crcBitStep (crcBitStep (crcBitStep (crcBitStep (c ^^^ b % 256))))))))

/-- The running CRC32 update over a byte list. -/
def crcUpd (c : Nat) (buf : List Nat) : Nat := buf.foldl crcByteStep c

/-- Modelled from the spec: `crc32_braid` (the scalar fallback in
`crate::crc32`, not part of the sources under `src/`) is specified as the
standard reflected CRC32 with polynomial 0xEDB88320, pre/post
xor 0xFFFFFFFF, applied to the running value `start`. -/
def crc32_braid (buf : List Nat) (start : Nat) : Nat :=
  crcUpd (start % 2 ^ 32 ^^^ 0xFFFFFFFF) buf ^^^ 0xFFFFFFFF

/-! ## Accumulator: the four-lane folding engine

The accumulator state (`Accumulator { fold: [__m128i; 4] }`) is a list of
four 128-bit lane values. -/

/-- `Accumulator::XMM_FOLD4`. -/
def XMM_FOLD4 : Nat := reg 0xc6e41596 0x00000001 0x54442bd4 0x00000001

/-- The initial accumulator: lane 0 holds `reg([0x9db42487, 0, 0, 0])`,
lanes 1-3 are zero (`Accumulator::new`). -/
def accNew : List Nat := [reg 0x9db42487 0 0 0, 0, 0, 0]

/-- `Accumulator::step`: advance one lane by one block width. -/
def step (input : Nat) : Nat :=
  pclmul input XMM_FOLD4 0x01 ^^^ pclmul input XMM_FOLD4 0x10

/-- `Accumulator::fold_step::<N>`: `fold = from_fn(|i| match fold.get(i + N)
{ Some v => v, None => step(fold[(i + N) - 4]) })`. -/
def fold_step (n : Nat) (f : List Nat) : List Nat :=
  (List.range 4).map fun i =>
    match f[i + n]? with
    | some v => v
    | none => step (f.getD (i + n - 4) 0)

/-- The 15 shuffle patterns of `PSHUFB_SHF_TABLE`, transcribed verbatim. -/
def PSHUFB_SHF_TABLE : List Nat :=
  [ reg 0x84838281 0x88878685 0x8c8b8a89 0x008f8e8d,
    reg 0x85848382 0x89888786 0x8d8c8b8a 0x01008f8e,
    reg 0x86858483 0x8a898887 0x8e8d8c8b 0x0201008f,
    reg 0x87868584 0x8b8a8988 0x8f8e8d8c 0x03020100,
    reg 0x88878685 0x8c8b8a89 0x008f8e8d 0x04030201,
    reg 0x89888786 0x8d8c8b8a 0x01008f8e 0x05040302,
    reg 0x8a898887 0x8e8d8c8b 0x0201008f 0x06050403,
    reg 0x8b8a8988 0x8f8e8d8c 0x03020100 0x07060504,
    reg 0x8c8b8a89 0x008f8e8d 0x04030201 0x08070605,
    reg 0x8d8c8b8a 0x01008f8e 0x05040302 0x09080706,
    reg 0x8e8d8c8b 0x0201008f 0x06050403 0x0a090807,
    reg 0x8f8e8d8c 0x03020100 0x07060504 0x0b0a0908,
    reg 0x008f8e8d 0x04030201 0x08070605 0x0c0b0a09,
    reg 0x01008f8e 0x05040302 0x09080706 0x0d0c0b0a,
    reg 0x0201008f 0x06050403 0x0a090807 0x0e0d0c0b ]

/-- The body of `Accumulator::partial_fold` (pure part, after the table
lookup `PSHUFB_SHF_TABLE[len - 1]` succeeded). -/
def subFold (f : List Nat) (part len : Nat) : List Nat :=
  let xmm_shl := PSHUFB_SHF_TABLE.getD (len - 1) 0
  let xmm_shr := xmm_shl ^^^ reg 0x80808080 0x80808080 0x80808080 0x80808080
  let f0 := f.getD 0 0
  let f1 := f.getD 1 0
  let f2 := f.getD 2 0
  let f3 := f.getD 3 0
  let xmm_a0 := step (shuf f0 xmm_shl)
  let g0 := shuf f0 xmm_shr ||| shuf f1 xmm_shl
  let g1 := shuf f1 xmm_shr ||| shuf f2 xmm_shl
  let g2 := shuf f2 xmm_shr ||| shuf f3 xmm_shl
  let partS := shuf part xmm_shl
  let g3 := (shuf f3 xmm_shr ||| partS) ^^^ xmm_a0
  [g0, g1, g2, g3]

/-- `Accumulator::finish`: the three `RK1_RK2` combine steps followed by
the `RK5_RK6` and `RK7_RK8` reductions and the final complement. -/
def finishAcc (f : List Nat) : Nat :=
  let CRC_MASK1 := reg 0xFFFFFFFF 0xFFFFFFFF 0x00000000 0x00000000
  let CRC_MASK2 := reg 0x00000000 0xFFFFFFFF 0xFFFFFFFF 0xFFFFFFFF
  let RK1_RK2 := reg 0xccaa009e 0x00000000 0x751997d0 0x00000001
  let RK5_RK6 := reg 0xccaa009e 0x00000000 0x63cd6124 0x00000001
  let RK7_RK8 := reg 0xf7011640 0x00000001 0xdb710640 0x00000001
  let xmm_crc0 := f.getD 0 0
  let xmm_crc1 := f.getD 1 0
  let xmm_crc2 := f.getD 2 0
  let xmm_crc3 := f.getD 3 0
  let x_tmp0 := pclmul xmm_crc0 RK1_RK2 0x10
  let xmm_crc0a := pclmul xmm_crc0 RK1_RK2 0x01
  let xmm_crc1a := xmm_crc1 ^^^ x_tmp0 ^^^ xmm_crc0a
  let x_tmp1 := pclmul xmm_crc1a RK1_RK2 0x10
  let xmm_crc1b := pclmul xmm_crc1a RK1_RK2 0x01
  let xmm_crc2a := xmm_crc2 ^^^ x_tmp1 ^^^ xmm_crc1b
  let x_tmp2 := pclmul xmm_crc2a RK1_RK2 0x10
  let xmm_crc2b := pclmul xmm_crc2a RK1_RK2 0x01
  let xmm_crc3a := xmm_crc3 ^^^ x_tmp2 ^^^ xmm_crc2b
  let c0 := xmm_crc3a
  let c3 := pclmul xmm_crc3a RK5_RK6 0
  let c0s := srli128 c0 8
  let c3a := c3 ^^^ c0s
  let d0 := c3a
  let d3 := slli128 c3a 4
  let d3a := pclmul d3 RK5_RK6 0x10
  let d3b := (d3a ^^^ d0) &&& CRC_MASK2
  let e1 := d3b
  let e2 := d3b
  let e3 := pclmul d3b RK7_RK8 0
  let e3a := (e3 ^^^ e2) &&& CRC_MASK1
  let e2b := e3a
  let e3b := pclmul e3a RK7_RK8 0x10
  let e3c := e3b ^^^ e2b ^^^ e1
  extract32at2 e3c ^^^ 0xFFFFFFFF

/-! ## Panic modelling

Each way the source can abort is a distinct constructor, so theorems can
name the exact abort that occurs. -/

/-- The aborts reachable in the source. -/
inductive RsPanic where
  /-- `assert!(src.len() >= 31 || init_crc != CRC32_INITIAL_VALUE)`. -/
  | assertMin31
  /-- `assert_eq!(dst.len(), src.len(), ..)` in the COPY variant. -/
  | assertLenEq
  /-- `it.next().unwrap()` on an exhausted `chunks_exact(16)` iterator in
  `Accumulator::progress`. -/
  | chunksNext
  /-- `PSHUFB_SHF_TABLE[len - 1]` with `len - 1` out of bounds (covers the
  `len = 0` underflow as well) in `Accumulator::partial_fold`. -/
  | shfTableIndex
  /-- `dst[..src.len()]` with `src.len() > dst.len()` in the fallback
  branch of `Crc32Fold::fold_copy`. -/
  | sliceOob
  /-- `dst.copy_from_slice(buf)` with unequal lengths in `crc32_copy`. -/
  | copyLenEq
  deriving DecidableEq, Repr

/-- `Accumulator::partial_fold`, including the table lookup that panics
unless `1 ≤ len ≤ 15`. -/
def subFoldE (f : List Nat) (part len : Nat) : Except RsPanic (List Nat) :=
  if 1 ≤ len ∧ len ≤ 15 then .ok (subFold f part len) else .error .shfTableIndex

/-- `Accumulator::progress::<N, COPY>`.  The source builds `input : [_; 4]`
by calling `it.next().unwrap()` four times on `src.chunks_exact(16)`, so
fewer than 64 bytes of input panic.  Returns the new lanes, the updated
destination slice, `src` advanced by `N * 16`, the updated carried seed,
and the number of destination bytes consumed (`N * 16` when copying). -/
def progress (n : Nat) (copy : Bool) (f dst src : List Nat) (initC : Nat) :
    Except RsPanic (List Nat × List Nat × List Nat × Nat × Nat) :=
  if src.length < 64 then .error .chunksNext
  else
    let input := (List.range 4).map fun i => load16 (src.drop (16 * i))
    let src' := src.drop (n * 16)
    let stored :=
      if copy then
        let k := min n (dst.length / 16)
        (input, ((input.take k).map natToBytes16).flatten ++ dst.drop (16 * k), initC)
      else if initC ≠ 0 then
        (input.set 0 (input.getD 0 0 ^^^ initC % 2 ^ 32), dst, 0)
      else
        (input, dst, initC)
    let f1 := fold_step n f
    let f2 := (List.range 4).map fun i =>
      if 4 - n ≤ i then f1.getD i 0 ^^^ stored.1.getD (i - (4 - n)) 0
      else f1.getD i 0
    .ok (f2, stored.2.1, src', stored.2.2, if copy then n * 16 else 0)

/-- The `while src.len() >= 64 { progress::<4, COPY> }` loop of
`fold_help`, written with explicit fuel.  Each iteration consumes exactly
64 source bytes, so `src.length` is always enough fuel; `bulkLoop` below
supplies it.  Returns the new lanes, the destination bytes finalized by
the loop, the remaining destination, the remaining source, and the
carried seed. -/
def bulkGo (fuel : Nat) (copy : Bool) (f dst src : List Nat) (initC : Nat) :
    Except RsPanic (List Nat × List Nat × List Nat × List Nat × Nat) :=
  match fuel with
  | 0 => .ok (f, [], dst, src, initC)
  | fuel + 1 =>
    if 64 ≤ src.length then
      match progress 4 copy f dst src initC with
      | .error e => .error e
      | .ok (f1, dst1, _, init1, adv) =>
        match bulkGo fuel copy f1 (dst1.drop adv) (src.drop 64) init1 with
        | .error e => .error e
        | .ok (f2, done2, dst2, src2, init2) =>
          .ok (f2, dst1.take adv ++ done2, dst2, src2, init2)
    else .ok (f, [], dst, src, initC)

/-- The bulk `while` loop with its fuel instantiated. -/
def bulkLoop (copy : Bool) (f dst src : List Nat) (initC : Nat) :
    Except RsPanic (List Nat × List Nat × List Nat × List Nat × Nat) :=
  bulkGo src.length copy f dst src initC

/-- The `if src.len() >= 48 / 32 / 16` ladder that follows the bulk loop
in `fold_help`, each arm one `progress::<3/2/1, COPY>` call. -/
def postLoop (copy : Bool) (f dst src : List Nat) (initC : Nat) :
    Except RsPanic (List Nat × List Nat × List Nat × List Nat × Nat) :=
  if 48 ≤ src.length then
    (progress 3 copy f dst src initC).map fun r =>
      (r.1, r.2.1.take r.2.2.2.2, r.2.1.drop r.2.2.2.2, r.2.2.1, r.2.2.2.1)
  else if 32 ≤ src.length then
    (progress 2 copy f dst src initC).map fun r =>
      (r.1, r.2.1.take r.2.2.2.2, r.2.1.drop r.2.2.2.2, r.2.2.1, r.2.2.2.1)
  else if 16 ≤ src.length then
    (progress 1 copy f dst src initC).map fun r =>
      (r.1, r.2.1.take r.2.2.2.2, r.2.1.drop r.2.2.2.2, r.2.2.1, r.2.2.2.1)
  else .ok (f, [], dst, src, initC)

/-- The `if !src.is_empty()` tail of `fold_help`: copy the remaining
`src.len() < 16` bytes over the low end of `xmm_crc_part`, optionally
store them through the scratch buffer to `dst`, and partial-fold. -/
def tailFold (copy : Bool) (f dst src : List Nat) (part : Nat) :
    Except RsPanic (List Nat × List Nat) :=
  if src.isEmpty then .ok (f, dst)
  else
    (subFoldE f (setBytes part src) src.length).map fun f' =>
      (f',
        if copy then
          (natToBytes16 (setBytes part src)).take src.length ++
            dst.drop src.length
        else dst)

/-- The `align_diff != 0` block of `fold_help` (lines 314-341 of the
source), including the unreachable `align_diff < 4 && init_crc != 0`
branch, transcribed verbatim.  Returns the new lanes, the destination
bytes finalized here, the remaining destination, the remaining source,
the loaded `xmm_crc_part`, and the (possibly cleared) seed. -/
def alignFold (copy : Bool) (f dst src : List Nat) (initC addr : Nat) :
    Except RsPanic (List Nat × List Nat × List Nat × List Nat × Nat × Nat) :=
  if (16 - addr % 16) % 16 = 0 then .ok (f, [], dst, src, 0, initC)
  else if copy then
    (subFoldE f (load16 src) ((16 - addr % 16) % 16)).map fun f' =>
      (f',
        (natToBytes16 (load16 src) ++ dst.drop 16).take ((16 - addr % 16) % 16),
        (natToBytes16 (load16 src) ++ dst.drop 16).drop ((16 - addr % 16) % 16),
        src.drop ((16 - addr % 16) % 16), load16 src, initC)
  else
    (subFoldE
        (if (16 - addr % 16) % 16 < 4 ∧ (if initC ≠ 0 then 0 else initC) ≠ 0 then
          (fold_step 1 f).set 3 ((fold_step 1 f).getD 3 0 ^^^
            (if initC ≠ 0 then load16 src ^^^ initC % 2 ^ 32 else load16 src))
        else f)
        (if (16 - addr % 16) % 16 < 4 ∧ (if initC ≠ 0 then 0 else initC) ≠ 0 then
          load16 (src.drop 16)
        else if initC ≠ 0 then load16 src ^^^ initC % 2 ^ 32 else load16 src)
        ((16 - addr % 16) % 16)).map fun f' =>
      (f', [], dst,
        (if (16 - addr % 16) % 16 < 4 ∧ (if initC ≠ 0 then 0 else initC) ≠ 0 then
          src.drop 16
        else src).drop ((16 - addr % 16) % 16),
        (if (16 - addr % 16) % 16 < 4 ∧ (if initC ≠ 0 then 0 else initC) ≠ 0 then
          load16 (src.drop 16)
        else if initC ≠ 0 then load16 src ^^^ initC % 2 ^ 32 else load16 src),
        if initC ≠ 0 then 0 else initC)

/-- `Accumulator::fold_help::<COPY>`: asserts, the short-input branch,
alignment handling, bulk ingestion, and the partial tail.  Returns the
new lanes and the full contents of the destination slice. -/
def fold_help (copy : Bool) (f dst src : List Nat) (initCrc addr : Nat) :
    Except RsPanic (List Nat × List Nat) :=
  if ¬ (31 ≤ src.length ∨ initCrc % 2 ^ 32 ≠ 0) then .error .assertMin31
  else if copy ∧ dst.length ≠ src.length then .error .assertLenEq
  else if src.length < 16 then
    if copy then
      if src.length = 0 then .ok (f, dst)
      else
        let part := bytesToNat src
        let dst1 := (natToBytes16 part).take src.length ++ dst.drop src.length
        tailFold copy f dst1 src part
    else tailFold copy f dst src 0
  else
    match alignFold copy f dst src (initCrc % 2 ^ 32) addr with
    | .error e => .error e
    | .ok (f1, done1, dst1, src1, part1, init1) =>
      match bulkLoop copy f1 dst1 src1 init1 with
      | .error e => .error e
      | .ok (f2, done2, dst2, src2, init2) =>
        match postLoop copy f2 dst2 src2 init2 with
        | .error e => .error e
        | .ok (f3, done3, dst3, src3, _) =>
          match tailFold copy f3 dst3 src3 part1 with
          | .error e => .error e
          | .ok (f4, dst4) => .ok (f4, done1 ++ done2 ++ done3 ++ dst4)

/-! ## The checksum facade and the one-shot entry points

`is_pclmulqdq()` is runtime capability detection, an external boolean
collaborator; it is passed in as the parameter `hw`, fixed per facade
lifetime (the spec fixes the path once per process). -/

/-- `Crc32Fold`: the four hardware lanes and the fallback running value. -/
structure Crc32Fold where
  fold : List Nat
  value : Nat
  deriving DecidableEq, Repr

/-- `Crc32Fold::new()`. -/
def Crc32Fold.new : Crc32Fold := { fold := accNew, value := 0 }

/-- `Crc32Fold::fold(src, start)`: hardware path folds into the
accumulator (`dst = &mut []`, COPY off); the fallback path ignores
`start` and advances the running value with the scalar algorithm. -/
def Crc32Fold.foldChunk (st : Crc32Fold) (hw : Bool) (src : List Nat)
    (start addr : Nat) : Except RsPanic Crc32Fold :=
  if hw then
    (fold_help false st.fold [] src start addr).map fun r =>
      { st with fold := r.1 }
  else
    .ok { st with value := crc32_braid src st.value }

/-- `Crc32Fold::fold_copy(dst, src)`: hardware path runs `fold_help` with
COPY on and `start = 0`; the fallback advances the running value and then
copies `src` into `dst[..src.len()]` (panicking when `dst` is shorter).
Returns the state and the full new contents of `dst`. -/
def Crc32Fold.foldCopy (st : Crc32Fold) (hw : Bool) (dst src : List Nat)
    (addr : Nat) : Except RsPanic (Crc32Fold × List Nat) :=
  if hw then
    (fold_help true st.fold dst src 0 addr).map fun r =>
      ({ st with fold := r.1 }, r.2)
  else
    if dst.length < src.length then .error .sliceOob
    else .ok ({ st with value := crc32_braid src st.value },
              src ++ dst.drop src.length)

/-- `Crc32Fold::finish()`. -/
def Crc32Fold.finish (st : Crc32Fold) (hw : Bool) : Nat :=
  if hw then finishAcc st.fold else st.value

/-- The one-shot `crc32(buf, start)` entry point. -/
def crc32 (buf : List Nat) (start : Nat) (hw : Bool) (addr : Nat) :
    Except RsPanic Nat :=
  if buf.length < 64 then .ok (crc32_braid buf start)
  else
    match Crc32Fold.new.foldChunk hw buf start addr with
    | .error e => .error e
    | .ok st => .ok (st.finish hw)

/-- The one-shot `crc32_copy(dst, buf)` entry point.  Returns the full new
contents of `dst` together with the checksum. -/
def crc32_copy (dst buf : List Nat) (hw : Bool) (addr : Nat) :
    Except RsPanic (List Nat × Nat) :=
  if buf.length < 64 then
    if dst.length = buf.length then .ok (buf, crc32_braid buf 0)
    else .error .copyLenEq
  else
    match Crc32Fold.new.foldCopy hw dst buf addr with
    | .error e => .error e
    | .ok r => .ok (r.2, r.1.finish hw)

/-- Result observer: does a `fold_help`-style result consist of the
out-of-bounds `PSHUFB_SHF_TABLE` panic? -/
def isShfErr {α : Type} : Except RsPanic α → Bool
  | .error .shfTableIndex => true
  | _ => false

/-- Result observer: did the computation return normally? -/
def isOkE {α : Type} : Except RsPanic α → Bool
  | .ok _ => true
  | .error _ => false

/-! ## Theorems -/

/-- Sanity: the CRC32 check value of the ASCII string "123456789". -/
theorem crc32_braid_check_value :
    crc32_braid [0x31, 0x32, 0x33, 0x34, 0x35, 0x36, 0x37, 0x38, 0x39] 0 =
      0xCBF43926 := by decide

/-- Sanity: the empty input yields the conventional value 0. -/
theorem crc32_braid_nil : crc32_braid [] 0 = 0 := by decide

/-- `crcUpd` distributes over append (the scalar update is a fold). -/
theorem crcUpd_append (c : Nat) (xs ys : List Nat) :
    crcUpd c (xs ++ ys) = crcUpd (crcUpd c xs) ys := by
  simp [crcUpd, List.foldl_append]

/-- Splitting a `crcUpd` run after the first `n` bytes. -/
theorem crcUpd_split (c n : Nat) (l : List Nat) :
    crcUpd c l = crcUpd (crcUpd c (l.take n)) (l.drop n) := by
  rw [← crcUpd_append, List.take_append_drop]

/-- Evaluation of the reference CRC32 on the byte sequence 0,1,..,63
with seed 0, computed 16 bytes at a time. -/
theorem braid_range64_zero :
    crc32_braid (List.range 64) 0 = 269405836 := by
  simp only [crc32_braid]
  rw [crcUpd_split _ 16]
  rw [show crcUpd (0 % 2 ^ 32 ^^^ 0xFFFFFFFF) ((List.range 64).take 16) = 825302391 from rfl]
  rw [crcUpd_split _ 16]
  rw [show crcUpd 825302391 (((List.range 64).drop 16).take 16) = 1859748213 from rfl]
  rw [crcUpd_split _ 16]
  rw [show crcUpd 1859748213 ((((List.range 64).drop 16).drop 16).take 16) = 4208975502 from rfl]
  rw [show crcUpd 4208975502 ((((List.range 64).drop 16).drop 16).drop 16) = 4025561459 from rfl]
  decide

/-- Evaluation of the reference CRC32 on the byte sequence 0,1,..,63
with seed 305419896, computed 16 bytes at a time. -/
theorem braid_range64_seeded :
    crc32_braid (List.range 64) 305419896 = 737542008 := by
  simp only [crc32_braid]
  rw [crcUpd_split _ 16]
  rw [show crcUpd (305419896 % 2 ^ 32 ^^^ 0xFFFFFFFF) ((List.range 64).take 16) = 1460066783 from rfl]
  rw [crcUpd_split _ 16]
  rw [show crcUpd 1460066783 (((List.range 64).drop 16).take 16) = 939888097 from rfl]
  rw [crcUpd_split _ 16]
  rw [show crcUpd 939888097 ((((List.range 64).drop 16).drop 16).take 16) = 4129535353 from rfl]
  rw [show crcUpd 4129535353 ((((List.range 64).drop 16).drop 16).drop 16) = 3557425287 from rfl]
  decide

/-- Evaluation of the reference CRC32 on the byte sequence 0,1,..,70
with seed 3735928559, computed 16 bytes at a time. -/
theorem braid_range71_seeded :
    crc32_braid (List.range 71) 3735928559 = 76413933 := by
  simp only [crc32_braid]
  rw [crcUpd_split _ 16]
  rw [show crcUpd (3735928559 % 2 ^ 32 ^^^ 0xFFFFFFFF) ((List.range 71).take 16) = 534751894 from rfl]
  rw [crcUpd_split _ 16]
  rw [show crcUpd 534751894 (((List.range 71).drop 16).take 16) = 830561513 from rfl]
  rw [crcUpd_split _ 16]
  rw [show crcUpd 830561513 ((((List.range 71).drop 16).drop 16).take 16) = 3785330502 from rfl]
  rw [crcUpd_split _ 16]
  rw [show crcUpd 3785330502 (((((List.range 71).drop 16).drop 16).drop 16).take 16) = 3413402720 from rfl]
  rw [show crcUpd 3413402720 (((((List.range 71).drop 16).drop 16).drop 16).drop 16) = 4218553362 from rfl]
  decide

/-- Evaluation of the reference CRC32 on the byte sequence 0,1,..,68
with seed 0, computed 16 bytes at a time. -/
theorem braid_range69_zero :
    crc32_braid (List.range 69) 0 = 3327830800 := by
  simp only [crc32_braid]
  rw [crcUpd_split _ 16]
  rw [show crcUpd (0 % 2 ^ 32 ^^^ 0xFFFFFFFF) ((List.range 69).take 16) = 825302391 from rfl]
  rw [crcUpd_split _ 16]
  rw [show crcUpd 825302391 (((List.range 69).drop 16).take 16) = 1859748213 from rfl]
  rw [crcUpd_split _ 16]
  rw [show crcUpd 1859748213 ((((List.range 69).drop 16).drop 16).take 16) = 4208975502 from rfl]
  rw [crcUpd_split _ 16]
  rw [show crcUpd 4208975502 (((((List.range 69).drop 16).drop 16).drop 16).take 16) = 4025561459 from rfl]
  rw [show crcUpd 4025561459 (((((List.range 69).drop 16).drop 16).drop 16).drop 16) = 967136495 from rfl]
  decide

/-- Evaluation of the reference CRC32 on the byte sequence 0,1,..,66
with seed 0, computed 16 bytes at a time. -/
theorem braid_range67_zero :
    crc32_braid (List.range 67) 0 = 2760195865 := by
  simp only [crc32_braid]
  rw [crcUpd_split _ 16]
  rw [show crcUpd (0 % 2 ^ 32 ^^^ 0xFFFFFFFF) ((List.range 67).take 16) = 825302391 from rfl]
  rw [crcUpd_split _ 16]
  rw [show crcUpd 825302391 (((List.range 67).drop 16).take 16) = 1859748213 from rfl]
  rw [crcUpd_split _ 16]
  rw [show crcUpd 1859748213 ((((List.range 67).drop 16).drop 16).take 16) = 4208975502 from rfl]
  rw [crcUpd_split _ 16]
  rw [show crcUpd 4208975502 (((((List.range 67).drop 16).drop 16).drop 16).take 16) = 4025561459 from rfl]
  rw [show crcUpd 4025561459 (((((List.range 67).drop 16).drop 16).drop 16).drop 16) = 1534771430 from rfl]
  decide

/-- Evaluation of the reference CRC32 on the byte sequence 0,1,..,66
with seed 16777216, computed 16 bytes at a time. -/
theorem braid_range67_seeded :
    crc32_braid (List.range 67) 16777216 = 732959372 := by
  simp only [crc32_braid]
  rw [crcUpd_split _ 16]
  rw [show crcUpd (16777216 % 2 ^ 32 ^^^ 0xFFFFFFFF) ((List.range 67).take 16) = 3970417906 from rfl]
  rw [crcUpd_split _ 16]
  rw [show crcUpd 3970417906 (((List.range 67).drop 16).take 16) = 232675409 from rfl]
  rw [crcUpd_split _ 16]
  rw [show crcUpd 232675409 ((((List.range 67).drop 16).drop 16).take 16) = 1498019522 from rfl]
  rw [crcUpd_split _ 16]
  rw [show crcUpd 1498019522 (((((List.range 67).drop 16).drop 16).drop 16).take 16) = 2453437516 from rfl]
  rw [show crcUpd 2453437516 (((((List.range 67).drop 16).drop 16).drop 16).drop 16) = 3562007923 from rfl]
  decide


/-! ## Hardware-path evaluations (literal results)

Each of these forces one full run of the register pipeline; the results
are tied back to the reference CRC in the sanity theorems below. -/

/-- The hardware pipeline on an aligned 64-byte buffer, zero seed. -/
theorem hw_range64_zero :
    crc32 (List.range 64) 0 true 0 = .ok 269405836 := rfl

/-- The hardware pipeline on an aligned 64-byte buffer, nonzero seed
(the seed is folded in by `progress`). -/
theorem hw_range64_seeded :
    crc32 (List.range 64) 305419896 true 0 = .ok 737542008 := rfl

/-- The hardware pipeline on a 71-byte buffer at `addr % 16 = 9`
(7-byte leading fragment, seed carried through `partial_fold`). -/
theorem hw_range71_seeded :
    crc32 (List.range 71) 3735928559 true 9 = .ok 76413933 := rfl

/-- The hardware pipeline on an aligned 69-byte buffer (5-byte tail). -/
theorem hw_range69_zero :
    crc32 (List.range 69) 0 true 0 = .ok 3327830800 := rfl

/-- The hardware pipeline on a 16-byte buffer at `addr % 16 = 9` with a
seed: leading fragment and tail only, no bulk ingestion. -/
theorem hw_range16_seeded :
    ((Crc32Fold.new.foldChunk true (List.range 16) 3735928559 9).map
      fun st => st.finish true) = .ok 3760215401 := rfl

/-! ## Sanity: the register pipeline reproduces the reference CRC -/

/-- Aligned 64-byte buffer, zero seed: hardware = reference. -/
theorem hw_matches_reference_aligned :
    crc32 (List.range 64) 0 true 0 = .ok (crc32_braid (List.range 64) 0) := by
  rw [braid_range64_zero]; exact hw_range64_zero

/-- Aligned 64-byte buffer, seed 0x12345678: hardware = reference. -/
theorem hw_matches_reference_seeded :
    crc32 (List.range 64) 305419896 true 0 =
      .ok (crc32_braid (List.range 64) 305419896) := by
  rw [braid_range64_seeded]; exact hw_range64_seeded

/-- 71 bytes at `addr % 16 = 9`, seed 0xDEADBEEF: hardware = reference
(the 7-byte leading fragment is at least 4 bytes, so the seed survives). -/
theorem hw_matches_reference_unaligned_seeded :
    crc32 (List.range 71) 3735928559 true 9 =
      .ok (crc32_braid (List.range 71) 3735928559) := by
  rw [braid_range71_seeded]; exact hw_range71_seeded

/-- Aligned 69-byte buffer (sub-16-byte tail path): hardware = reference. -/
theorem hw_matches_reference_tail :
    crc32 (List.range 69) 0 true 0 = .ok (crc32_braid (List.range 69) 0) := by
  rw [braid_range69_zero]; exact hw_range69_zero

/-- 16 bytes at `addr % 16 = 9` with a seed (partial folds only, no bulk
blocks): hardware = reference. -/
theorem hw_matches_reference_short_seeded :
    ((Crc32Fold.new.foldChunk true (List.range 16) 3735928559 9).map
      fun st => st.finish true) =
      .ok (crc32_braid (List.range 16) 3735928559) := by
  rw [show crc32_braid (List.range 16) 3735928559 = 3760215401 from rfl]
  exact hw_range16_seeded

/-! ## Control-flow lemmas for the folding pipeline -/

/-- With fewer than 64 bytes left, `progress` always hits the
`unwrap`-of-`None` panic: `chunks_exact(16)` cannot yield the four blocks
that `array::from_fn` demands. -/
theorem progress_short (n : Nat) (copy : Bool) (f dst src : List Nat)
    (i : Nat) (h : src.length < 64) :
    progress n copy f dst src i = .error .chunksNext := by
  simp [progress, h]

/-- The only panic `progress` can produce is the chunk-iterator one. -/
theorem progress_error (n : Nat) (copy : Bool) (f dst src : List Nat)
    (i : Nat) (e : RsPanic) (h : progress n copy f dst src i = .error e) :
    e = .chunksNext := by
  unfold progress at h
  split at h
  · injection h with h
    exact h.symm
  · simp at h

/-- The only panic the bulk loop can produce is the chunk-iterator one. -/
theorem bulkGo_error (fuel : Nat) : ∀ (copy : Bool) (f dst src : List Nat)
    (i : Nat) (e : RsPanic),
    bulkGo fuel copy f dst src i = .error e → e = .chunksNext := by
  induction fuel with
  | zero =>
    intro copy f dst src i e h
    simp [bulkGo] at h
  | succ fuel ih =>
    intro copy f dst src i e h
    rw [bulkGo] at h
    split at h
    · cases hp : progress 4 copy f dst src i with
      | error e2 =>
        rw [hp] at h
        injection h with h
        exact h ▸ progress_error 4 copy f dst src i e2 hp
      | ok r =>
        obtain ⟨f1, dst1, src1, init1, adv⟩ := r
        rw [hp] at h
        dsimp only at h
        cases hb : bulkGo fuel copy f1 (dst1.drop adv) (src.drop 64) init1 with
        | error e3 =>
          rw [hb] at h
          injection h with h
          exact h ▸ ih copy f1 (dst1.drop adv) (src.drop 64) init1 e3 hb
        | ok r2 =>
          obtain ⟨f2, done2, dst2, src2, init2⟩ := r2
          rw [hb] at h
          simp at h
    · simp at h

/-- When the bulk loop has enough fuel (it always gets `src.length`) and
returns normally, fewer than 64 source bytes remain. -/
theorem bulkGo_ok_short (fuel : Nat) : ∀ (copy : Bool) (f dst src : List Nat)
    (i : Nat) (r : List Nat × List Nat × List Nat × List Nat × Nat),
    src.length ≤ fuel → bulkGo fuel copy f dst src i = .ok r →
    r.2.2.2.1.length < 64 := by
  induction fuel with
  | zero =>
    intro copy f dst src i r hf h
    simp only [bulkGo] at h
    injection h with h
    subst h
    dsimp only
    omega
  | succ fuel ih =>
    intro copy f dst src i r hf h
    rw [bulkGo] at h
    split at h
    · cases hp : progress 4 copy f dst src i with
      | error e2 => rw [hp] at h; simp at h
      | ok r1 =>
        obtain ⟨f1, dst1, src1, init1, adv⟩ := r1
        rw [hp] at h
        dsimp only at h
        cases hb : bulkGo fuel copy f1 (dst1.drop adv) (src.drop 64) init1 with
        | error e3 => rw [hb] at h; simp at h
        | ok r2 =>
          obtain ⟨f2, done2, dst2, src2, init2⟩ := r2
          rw [hb] at h
          injection h with h
          have hlen : (src.drop 64).length ≤ fuel := by
            simp only [List.length_drop]
            omega
          have hres := ih copy f1 (dst1.drop adv) (src.drop 64) init1
            (f2, done2, dst2, src2, init2) hlen hb
          subst h
          exact hres
    · injection h with h
      subst h
      dsimp only
      omega

/-- With fewer than 64 bytes left (always the case after the bulk loop),
the only panic the `>= 48 / 32 / 16` ladder can produce is the
chunk-iterator one. -/
theorem postLoop_error (copy : Bool) (f dst src : List Nat) (i : Nat)
    (e : RsPanic) (hs : src.length < 64)
    (h : postLoop copy f dst src i = .error e) : e = .chunksNext := by
  unfold postLoop at h
  split at h
  · rw [progress_short 3 copy f dst src i hs] at h
    injection h with h
    exact h.symm
  · split at h
    · rw [progress_short 2 copy f dst src i hs] at h
      injection h with h
      exact h.symm
    · split at h
      · rw [progress_short 1 copy f dst src i hs] at h
        injection h with h
        exact h.symm
      · simp at h

/-- When the ladder returns normally on fewer than 64 bytes, all three
`progress` arms were skipped: fewer than 16 bytes remain and the source
is passed through unchanged. -/
theorem postLoop_ok (copy : Bool) (f dst src : List Nat) (i : Nat)
    (r : List Nat × List Nat × List Nat × List Nat × Nat)
    (hs : src.length < 64) (h : postLoop copy f dst src i = .ok r) :
    r.2.2.2.1 = src ∧ src.length < 16 := by
  unfold postLoop at h
  split at h
  · rw [progress_short 3 copy f dst src i hs] at h
    injection h
  · split at h
    · rw [progress_short 2 copy f dst src i hs] at h
      injection h
    · split at h
      · rw [progress_short 1 copy f dst src i hs] at h
        injection h
      · injection h with h
        subst h
        refine ⟨rfl, ?_⟩
        omega

/-- When the fragment length is in range, `partial_fold` succeeds. -/
theorem subFoldE_ok (f : List Nat) (part len : Nat)
    (h : 1 ≤ len ∧ len ≤ 15) :
    subFoldE f part len = .ok (subFold f part len) := by
  unfold subFoldE
  exact if_pos h

/-- The tail partial fold never hits the shuffle-table panic: it is
guarded by `!src.is_empty()` and only ever sees `src.length ≤ 15`. -/
theorem tailFold_no_shf (copy : Bool) (f dst src : List Nat) (part : Nat)
    (hs : src.length ≤ 15) :
    isShfErr (tailFold copy f dst src part) = false := by
  unfold tailFold
  split
  · rfl
  · have h1 : 1 ≤ src.length := by
      rename_i hne
      cases src with
      | nil => simp [List.isEmpty] at hne
      | cons a l => simp
    rw [subFoldE_ok f (setBytes part src) src.length ⟨h1, hs⟩]
    rfl

/-- The alignment block never panics: when it runs at all, the fragment
length `(16 - addr % 16) % 16` is between 1 and 15, so its
`partial_fold` lookup is in bounds. -/
theorem alignFold_ok (copy : Bool) (f dst src : List Nat) (i a : Nat) :
    ∃ r, alignFold copy f dst src i a = .ok r := by
  unfold alignFold
  by_cases h0 : (16 - a % 16) % 16 = 0
  · rw [if_pos h0]
    exact ⟨_, rfl⟩
  · rw [if_neg h0]
    have hb : 1 ≤ (16 - a % 16) % 16 ∧ (16 - a % 16) % 16 ≤ 15 := by omega
    cases copy with
    | true =>
      rw [if_pos rfl, subFoldE_ok _ _ _ hb]
      exact ⟨_, rfl⟩
    | false =>
      rw [if_neg (by simp), subFoldE_ok _ _ _ hb]
      exact ⟨_, rfl⟩

/-- The COPY variant refuses mismatched lengths before doing anything: one
of the two leading `assert!`s fires. -/
theorem fold_help_copy_mismatch (f dst src : List Nat) (a : Nat)
    (hne : dst.length ≠ src.length) :
    isOkE (fold_help true f dst src 0 a) = false := by
  unfold fold_help
  split
  · rfl
  · split
    · rfl
    · rename_i hno
      exact absurd ⟨rfl, hne⟩ hno

/-- Claim C10: every `partial_fold` invocation reachable from `fold_help`
has its fragment length in `1..=15` (the leading fragment is
`(16 - addr % 16) % 16` in `1..=15` when nonzero; the final tail is under
16 bytes whenever it is reached), so the lookup `PSHUFB_SHF_TABLE[len - 1]`
is always in bounds and `len - 1` never underflows. -/
theorem fold_help_no_shf (copy : Bool) (f dst src : List Nat)
    (initC a : Nat) :
    isShfErr (fold_help copy f dst src initC a) = false := by
  unfold fold_help
  split
  · rfl
  · split
    · rfl
    · split
      · rename_i h16
        split
        · split
          · rfl
          · exact tailFold_no_shf _ _ _ _ _ (by omega)
        · exact tailFold_no_shf _ _ _ _ _ (by omega)
      · rename_i h16
        obtain ⟨⟨f1, done1, dst1, src1, part1, init1⟩, hA⟩ :=
          alignFold_ok copy f dst src (initC % 2 ^ 32) a
        simp only [hA]
        cases hB : bulkLoop copy f1 dst1 src1 init1 with
        | error e =>
          have he : e = .chunksNext :=
            bulkGo_error src1.length copy f1 dst1 src1 init1 e hB
          simp only [hB, he]
          rfl
        | ok r2 =>
          obtain ⟨f2, done2, dst2, src2, init2⟩ := r2
          have hs2 : src2.length < 64 :=
            bulkGo_ok_short src1.length copy f1 dst1 src1 init1
              (f2, done2, dst2, src2, init2) le_rfl hB
          simp only [hB]
          cases hC : postLoop copy f2 dst2 src2 init2 with
          | error e =>
            have he : e = .chunksNext :=
              postLoop_error copy f2 dst2 src2 init2 e hs2 hC
            simp only [hC, he]
            rfl
          | ok r3 =>
            obtain ⟨f3, done3, dst3, src3, init3⟩ := r3
            obtain ⟨hsrc3, hlt16⟩ :=
              postLoop_ok copy f2 dst2 src2 init2
                (f3, done3, dst3, src3, init3) hs2 hC
            simp only [hC]
            cases hD : tailFold copy f3 dst3 src3 part1 with
            | error e =>
              have ht : isShfErr (tailFold copy f3 dst3 src3 part1) = false :=
                tailFold_no_shf copy f3 dst3 src3 part1
                  (by rw [show src3 = src2 from hsrc3]; omega)
              rw [hD] at ht
              simp only [hD]
              exact ht
            | ok r4 =>
              obtain ⟨f4, dst4⟩ := r4
              simp only [hD]
              rfl

/-! ## Claim theorems -/

/-- Claim C1: `crc32(v, s)` does not return the standard reflected CRC32
for every `v` and `s`.  On the hardware path an aligned 80-byte buffer
aborts: after the 64-byte bulk iteration, 16 bytes remain and
`progress::<1>` still pulls four chunks from a `chunks_exact(16)`
iterator holding one, so `it.next().unwrap()` panics.  The fallback path
returns normally on the same input. -/
theorem crc32_panics_on_eighty_bytes :
    crc32 (List.replicate 80 0) 0 true 0 = .error .chunksNext ∧
    isOkE (crc32 (List.replicate 80 0) 0 false 0) = true := ⟨rfl, rfl⟩

/-- Claim C2: chunked folding diverges from single-shot folding on the
hardware path.  Feeding the first 32-byte half of a 64-byte buffer panics
inside `progress::<2>` (`unwrap` of `None`), while feeding the whole
64-byte buffer in one call returns the reference CRC32. -/
theorem chunked_fold_diverges_from_single :
    Crc32Fold.new.foldChunk true ((List.range 64).take 32) 0 0 =
      .error .chunksNext ∧
    ((Crc32Fold.new.foldChunk true (List.range 64) 0 0).map
      fun st => st.finish true) = .ok (crc32_braid (List.range 64) 0) := by
  refine ⟨rfl, ?_⟩
  rw [braid_range64_zero]
  rfl

/-- Claim C3: `crc32_copy` does not complete for every equal-length
`dst`/`src` pair.  On the hardware path an 80-byte buffer panics in
`progress::<1>` exactly as `crc32` does; the fallback path returns
normally on the same input. -/
theorem crc32_copy_panics_on_eighty_bytes :
    crc32_copy (List.replicate 80 0) (List.replicate 80 7) true 0 =
      .error .chunksNext ∧
    isOkE (crc32_copy (List.replicate 80 0) (List.replicate 80 7) false 0) =
      true := ⟨rfl, rfl⟩

/-- Claim C4: the batched `fold_step::<N>` equals `N` sequential
applications of the single-block `fold_step::<1>` on every four-lane
state, for `N` in 1, 2, 3, 4. -/
theorem fold_step_eq_iterated_single (a b c d : Nat) :
    fold_step 1 [a, b, c, d] = [b, c, d, step a] ∧
    fold_step 2 [a, b, c, d] = fold_step 1 (fold_step 1 [a, b, c, d]) ∧
    fold_step 3 [a, b, c, d] =
      fold_step 1 (fold_step 1 (fold_step 1 [a, b, c, d])) ∧
    fold_step 4 [a, b, c, d] =
      fold_step 1 (fold_step 1 (fold_step 1 (fold_step 1 [a, b, c, d]))) := by
  refine ⟨?_, ?_, ?_, ?_⟩ <;>
    · unfold fold_step
      simp [List.range_succ]

/-- Claim C5: the extra-block reload guarded by
`align_diff < 4 && init_crc != CRC32_INITIAL_VALUE` is dead code (the
guard runs after `init_crc` was just reset), so on a 67-byte buffer at
`addr % 16 = 13` (3-byte leading fragment) with seed 0x01000000 the
hardware path silently drops the seed's high bytes: it returns the
reference CRC for seed 0, not the reference CRC for the supplied seed. -/
theorem unaligned_small_fragment_seed_dropped :
    crc32 (List.range 67) 16777216 true 13 =
      .ok (crc32_braid (List.range 67) 0) ∧
    crc32_braid (List.range 67) 16777216 ≠ crc32_braid (List.range 67) 0 := by
  constructor
  · rw [braid_range67_zero]
    rfl
  · rw [braid_range67_zero, braid_range67_seeded]
    decide

/-- Claim C6, counterexample: on the fallback path, `fold_copy` with
`dst` longer than `src` returns normally instead of aborting: it fills
`dst[..src.len()]` and leaves the rest untouched. -/
theorem fold_copy_fallback_mismatch_no_abort :
    Crc32Fold.new.foldCopy false [0, 0] [5] 0 =
      .ok ({ fold := accNew, value := 2724731650 }, [5, 0]) := rfl

/-- Claim C6, amended: the hardware path aborts on any length mismatch
(one of the two leading assertions), and the fallback path aborts when
`dst` is shorter than `src` (slice-index panic); but when `dst` is longer
than `src` the fallback path returns normally, writing only the first
`src.len()` bytes. -/
theorem copy_mismatch_abort_amended (st : Crc32Fold) (dst src : List Nat)
    (a : Nat) (hne : dst.length ≠ src.length) :
    isOkE (st.foldCopy true dst src a) = false ∧
    (dst.length < src.length →
      st.foldCopy false dst src a = .error .sliceOob) ∧
    (src.length < dst.length →
      st.foldCopy false dst src a =
        .ok ({ st with value := crc32_braid src st.value },
             src ++ dst.drop src.length)) := by
  refine ⟨?_, ?_, ?_⟩
  · unfold Crc32Fold.foldCopy
    rw [if_pos rfl]
    have h := fold_help_copy_mismatch st.fold dst src a hne
    cases hh : fold_help true st.fold dst src 0 a with
    | error e => rfl
    | ok r =>
      rw [hh] at h
      simp [isOkE] at h
  · intro hlt
    unfold Crc32Fold.foldCopy
    rw [if_neg (by simp), if_pos hlt]
  · intro hgt
    unfold Crc32Fold.foldCopy
    rw [if_neg (by simp), if_neg (by omega)]

/-- Claim C6, amended, witness at `dst = [0,0,0]`, `src = [5]`. -/
theorem copy_mismatch_abort_amended_w :
    Crc32Fold.new.foldCopy false [0, 0, 0] [5] 0 =
      .ok ({ Crc32Fold.new with value := crc32_braid [5] Crc32Fold.new.value },
           [5] ++ [0, 0, 0].drop [5].length) :=
  (copy_mismatch_abort_amended Crc32Fold.new [0, 0, 0] [5] 0
    (by decide)).2.2 (by decide)

/-- Claim C7: on the fallback path `fold` ignores the caller-supplied
`start` entirely (and the ghost address as well): the new facade state is
`crc32_braid(chunk, previous running value)` for every pair of starts. -/
theorem fallback_fold_ignores_start (st : Crc32Fold) (chunk : List Nat)
    (s1 s2 a1 a2 : Nat) :
    st.foldChunk false chunk s1 a1 = st.foldChunk false chunk s2 a2 ∧
    st.foldChunk false chunk s1 a1 =
      .ok { st with value := crc32_braid chunk st.value } := by
  constructor
  · unfold Crc32Fold.foldChunk
    rw [if_neg (by simp), if_neg (by simp)]
  · unfold Crc32Fold.foldChunk
    rw [if_neg (by simp)]

/-- Claim C8, counterexample: a hardware-path `fold` of 3 bytes with
start 0 does not return normally with unchanged state: it aborts on the
`assert!(src.len() >= 31 || init_crc != CRC32_INITIAL_VALUE)`. -/
theorem small_fold_aborts_eval :
    Crc32Fold.new.foldChunk true [1, 2, 3] 0 0 = .error .assertMin31 := by
  unfold Crc32Fold.foldChunk
  rw [if_pos rfl,
    show fold_help false Crc32Fold.new.fold [] [1, 2, 3] 0 0 =
      .error .assertMin31 from rfl]
  rfl

/-- Claim C8, amended: on the hardware path, `fold` of fewer than 16
bytes with start 0 always aborts on the minimum-length assertion (rather
than folding nothing and returning). -/
theorem small_fold_aborts (st : Crc32Fold) (src : List Nat) (a : Nat)
    (h : src.length < 16) :
    st.foldChunk true src 0 a = .error .assertMin31 := by
  unfold Crc32Fold.foldChunk
  rw [if_pos rfl]
  have hc : ¬ (31 ≤ src.length ∨ (0 : Nat) % 2 ^ 32 ≠ 0) := by omega
  unfold fold_help
  rw [if_pos hc]
  rfl

/-- Claim C8, amended, witness at a 1-byte slice. -/
theorem small_fold_aborts_w :
    Crc32Fold.new.foldChunk true [9] 0 3 = .error .assertMin31 :=
  small_fold_aborts Crc32Fold.new [9] 3 (by decide)

/-- Claim C9: the one-shot entry points dispatch on the 64-byte
threshold: below it they return the scalar fallback value directly (for
either detected path), at or above it they run the facade
fold / fold_copy and finish. -/
theorem dispatch_threshold (buf dst : List Nat) (start a : Nat) (hw : Bool)
    (hd : dst.length = buf.length) :
    crc32 buf start hw a =
      (if buf.length < 64 then .ok (crc32_braid buf start)
       else (Crc32Fold.new.foldChunk hw buf start a).map
         fun st => st.finish hw) ∧
    crc32_copy dst buf hw a =
      (if buf.length < 64 then .ok (buf, crc32_braid buf 0)
       else (Crc32Fold.new.foldCopy hw dst buf a).map
         fun r => (r.2, r.1.finish hw)) := by
  constructor
  · unfold crc32
    by_cases h : buf.length < 64
    · rw [if_pos h, if_pos h]
    · rw [if_neg h, if_neg h]
      cases Crc32Fold.new.foldChunk hw buf start a with
      | error e => rfl
      | ok st => rfl
  · unfold crc32_copy
    by_cases h : buf.length < 64
    · rw [if_pos h, if_pos h, if_pos hd]
    · rw [if_neg h, if_neg h]
      cases Crc32Fold.new.foldCopy hw dst buf a with
      | error e => rfl
      | ok r => rfl

/-- Claim C9, witness at a 3-byte buffer with matching 3-byte `dst`. -/
theorem dispatch_threshold_w :
    (crc32 [1, 2, 3] 7 true 13 =
      (if [1, 2, 3].length < 64 then .ok (crc32_braid [1, 2, 3] 7)
       else (Crc32Fold.new.foldChunk true [1, 2, 3] 7 13).map
         fun st => st.finish true)) ∧
    (crc32_copy [4, 5, 6] [1, 2, 3] true 13 =
      (if [1, 2, 3].length < 64 then .ok ([1, 2, 3], crc32_braid [1, 2, 3] 0)
       else (Crc32Fold.new.foldCopy true [4, 5, 6] [1, 2, 3] 13).map
         fun r => (r.2, r.1.finish true))) :=
  dispatch_threshold [1, 2, 3] [4, 5, 6] 7 13 true (by decide)

end ZlibRs
